import Mathlib

set_option autoImplicit false

/-! Shallow embedding of the crossroadsbot core: the per-user Conversation lock and
signup flows (src/conversation.rs), the database access layer (src/db.rs and
src/db/models.rs), the fixed dialog timeout (src/commands.rs) and the signup board
(src/signup_board.rs). Platform calls (Discord) are modelled by an environment
record plus an explicit trace of emitted calls; database tables are explicit lists
threaded through each operation. -/

/-- Decidable equality for Except results, used to evaluate concrete runs. -/
instance exceptDecEq {ε α : Type} [DecidableEq ε] [DecidableEq α] :
    DecidableEq (Except ε α)
  | .ok a, .ok b =>
    if h : a = b then .isTrue (by rw [h]) else .isFalse (by simp [h])
  | .ok _, .error _ => .isFalse (by simp)
  | .error _, .ok _ => .isFalse (by simp)
  | .error e, .error f =>
    if h : e = f then .isTrue (by rw [h]) else .isFalse (by simp [h])

/-- Discord user id (serenity UserId, src uses u64). -/
abbrev UserId := Nat

/-- Training lifecycle state (src/db/models.rs, enum TrainingState). -/
inductive TrainingState where
  | Created
  | Open
  | Closed
  | Started
  | Finished
  deriving DecidableEq, Repr

/-- Registered user row (src/db/models.rs, struct User; named DbUser to keep it
apart from the Discord-side user which we model by its UserId alone). -/
structure DbUser where
  id : Int
  discord_id : Nat
  gw2_id : String
  deriving DecidableEq, Repr

/-- Training row (src/db/models.rs, struct Training; the chrono NaiveDateTime is
abstracted to an integer timestamp, rendered by an environment-supplied format). -/
structure Training where
  id : Int
  title : String
  date : Int
  state : TrainingState
  tier_id : Option Int
  deriving DecidableEq, Repr

/-- Selectable role row (src/db/models.rs, struct Role). -/
structure Role where
  id : Int
  title : String
  repr : String
  emoji : Int
  active : Bool
  deriving DecidableEq, Repr

/-- Signup row (src/db/models.rs, struct Signup). -/
structure Signup where
  id : Int
  user_id : Int
  training_id : Int
  deriving DecidableEq, Repr

/-- Signup-role join row (src/db/models.rs, struct SignupRole). -/
structure SignupRole where
  id : Int
  signup_id : Int
  role_id : Int
  deriving DecidableEq, Repr

/-- Training-role join row (src/db/models.rs, struct TrainingRole). -/
structure TrainingRole where
  id : Int
  training_id : Int
  role_id : Int
  deriving DecidableEq, Repr

/-- Tier row (src/db/models.rs, struct Tier). -/
structure Tier where
  id : Int
  name : String
  deriving DecidableEq, Repr

/-- Tier mapping row (src/db/models.rs, struct TierMapping). -/
structure TierMapping where
  id : Int
  tier_id : Int
  discord_role_id : Int
  deriving DecidableEq, Repr

/-- Config key-value row (db config table, used by src/signup_board.rs). -/
structure ConfigRow where
  name : String
  value : String
  deriving DecidableEq, Repr

/-- The relational database state: one list per table plus fresh-id counters for
the two insert operations the embedded flows perform (src/db.rs wraps one diesel
query per method; inserts return the generated row). -/
structure Db where
  users : List DbUser
  trainings : List Training
  roles : List Role
  training_roles : List TrainingRole
  signups : List Signup
  signup_roles : List SignupRole
  tiers : List Tier
  tier_mappings : List TierMapping
  config : List ConfigRow
  next_signup_id : Int
  next_signup_role_id : Int
  deriving DecidableEq, Repr

/-- Outcome of a diesel query: NotFound or another backend error
(the pure embedding only ever produces notFound, but the flows in
src/conversation.rs match on the other-error arm as well). -/
inductive DbErr where
  | notFound
  | other (msg : String)
  deriving DecidableEq, Repr

/-- db::User::by_discord_id (src/db.rs, select_user_by_discord_id): first user row
with the given discord id. -/
def DbUser.by_discord_id (db : Db) (discord_id : Nat) : Except DbErr DbUser :=
  match db.users.find? (fun u => u.discord_id == discord_id) with
  | some u => .ok u
  | none => .error .notFound

/-- db::Training::by_id (src/db.rs): first training row with the given id. -/
def Training.by_id (db : Db) (id : Int) : Except DbErr Training :=
  match db.trainings.find? (fun t => t.id == id) with
  | some t => .ok t
  | none => .error .notFound

/-- db::Training::by_id_and_state (src/db.rs): first training row with the given
id and state. -/
def Training.by_id_and_state (db : Db) (id : Int) (state : TrainingState) :
    Except DbErr Training :=
  match db.trainings.find? (fun t => t.id == id && t.state == state) with
  | some t => .ok t
  | none => .error .notFound

/-- db::Training::get_training_roles (src/db.rs): the TrainingRole rows belonging
to this training. -/
def Training.get_training_roles (db : Db) (t : Training) : List TrainingRole :=
  db.training_roles.filter (fun tr => tr.training_id == t.id)

/-- db::TrainingRole::role (src/db.rs): the Role row for this training role,
filtered to active roles only; NotFound when the role is missing or deactivated. -/
def TrainingRole.role (db : Db) (tr : TrainingRole) : Except DbErr Role :=
  match (db.roles.filter (fun r => r.active)).find? (fun r => r.id == tr.role_id) with
  | some r => .ok r
  | none => .error .notFound

/-- db::Training::active_roles (src/db.rs): TrainingRole rows of this training
inner-joined with their active Role rows. -/
def Training.active_roles (db : Db) (t : Training) : List (TrainingRole × Role) :=
  (db.training_roles.filter (fun tr => tr.training_id == t.id)).filterMap
    (fun tr =>
      ((db.roles.filter (fun r => r.active)).find? (fun r => r.id == tr.role_id)).map
        (fun r => (tr, r)))

/-- db::Training::get_tier (src/db.rs): none when the training has no tier id,
otherwise the result of looking the tier row up. -/
def Training.get_tier (db : Db) (t : Training) : Option (Except DbErr Tier) :=
  match t.tier_id with
  | none => none
  | some id =>
    some (match db.tiers.find? (fun ti => ti.id == id) with
          | some ti => .ok ti
          | none => .error .notFound)

/-- db::Tier::get_discord_roles (src/db.rs): TierMapping rows belonging to this
tier. -/
def Tier.get_discord_roles (db : Db) (t : Tier) : List TierMapping :=
  db.tier_mappings.filter (fun m => m.tier_id == t.id)

/-- db::Signup::by_user_and_training (src/db.rs): first signup row matching both
the user id and the training id. -/
def Signup.by_user_and_training (db : Db) (u : DbUser) (t : Training) :
    Except DbErr Signup :=
  match db.signups.find? (fun s => s.user_id == u.id && s.training_id == t.id) with
  | some s => .ok s
  | none => .error .notFound

/-- Insertable signup (src/db/models.rs, struct NewSignup). -/
structure NewSignup where
  user_id : Int
  training_id : Int
  deriving DecidableEq, Repr

/-- db::NewSignup::add (src/db.rs): insert the row, returning the generated
Signup together with the updated database. -/
def NewSignup.add (db : Db) (ns : NewSignup) : Signup × Db :=
  let s : Signup :=
    { id := db.next_signup_id, user_id := ns.user_id, training_id := ns.training_id }
  (s, { db with signups := db.signups ++ [s], next_signup_id := db.next_signup_id + 1 })

/-- Insertable signup role (src/db/models.rs, struct NewSignupRole). -/
structure NewSignupRole where
  signup_id : Int
  role_id : Int
  deriving DecidableEq, Repr

/-- db::NewSignupRole::add (src/db.rs): insert the row, returning the generated
SignupRole together with the updated database. -/
def NewSignupRole.add (db : Db) (nr : NewSignupRole) : SignupRole × Db :=
  let r : SignupRole :=
    { id := db.next_signup_role_id, signup_id := nr.signup_id, role_id := nr.role_id }
  (r, { db with signup_roles := db.signup_roles ++ [r],
                next_signup_role_id := db.next_signup_role_id + 1 })

/-- db::Config::load (src/db.rs): first config row with the given name. -/
def ConfigRow.load (db : Db) (name : String) : Except DbErr ConfigRow :=
  match db.config.find? (fun c => c.name == name) with
  | some c => .ok c
  | none => .error .notFound

/-! ## Conversation lock and flow engine (src/conversation.rs) -/

/-- Error taxonomy of the Conversation engine (src/conversation.rs, enum
ConversationError). -/
inductive ConversationError where
  | ConversationLocked
  | NoDmChannel
  | DmBlocked
  | TimedOut
  | Canceled
  | Other (msg : String)
  deriving DecidableEq, Repr

/-- Display strings of ConversationError (src/conversation.rs, impl fmt::Display). -/
def ConversationError.message : ConversationError → String
  | .ConversationLocked => "Already in another DM conversation"
  | .NoDmChannel => "Unable to load DM channel"
  | .DmBlocked => "Unable to send message in DM channel"
  | .TimedOut => "Conversation timed out"
  | .Canceled => "Conversation canceled"
  | .Other s => s

/-- ConversationError::is_init_err (src/conversation.rs). -/
def ConversationError.is_init_err : ConversationError → Bool
  | .DmBlocked | .NoDmChannel | .ConversationLocked => true
  | _ => false

/-- Behaviour of the Discord platform towards one user: whether create_dm_channel
succeeds and whether sending messages into the DM channel succeeds. -/
structure ConvEnv where
  can_create_dm : Bool
  can_send_msg : Bool
  deriving DecidableEq, Repr

/-- Trace of platform calls a flow performs (create_dm_channel, send_message,
msg.edit, msg.reply). -/
inductive Event where
  | createDm (user : UserId)
  | sendMsg (user : UserId) (content : String)
  | editMsg (content : String)
  | reply (content : String)
  deriving DecidableEq, Repr

/-- Process state threaded through conversation flows: the process-wide
DashSet<UserId> conversation lock plus the database. -/
structure ConvState where
  lock : Finset UserId
  db : Db
  deriving DecidableEq

/-- A live Conversation (src/conversation.rs, struct Conversation): the locked
user, the DM channel (keyed by the user) and the anchor message. The shared lock
set itself lives in ConvState. -/
structure Conversation where
  user : UserId
  chan : UserId
  msg_id : Nat
  deriving DecidableEq, Repr

/-- Conversation::start (src/conversation.rs lines 73-107): test-and-set the
per-user lock; on failure return ConversationLocked without touching anything.
Then create the DM channel (failure: remove the lock, NoDmChannel) and send the
anchor message "Loading ..." (failure: remove the lock, DmBlocked). -/
def Conversation.start (env : ConvEnv) (user : UserId) (s : ConvState) :
    Except ConversationError Conversation × ConvState × List Event :=
  if user ∈ s.lock then
    (.error .ConversationLocked, s, [])
  else
    let lock1 := insert user s.lock
    if env.can_create_dm then
      if env.can_send_msg then
        (.ok { user := user, chan := user, msg_id := 0 },
         { s with lock := lock1 },
         [.createDm user, .sendMsg user "Loading ..."])
      else
        (.error .DmBlocked, { s with lock := lock1.erase user },
         [.createDm user, .sendMsg user "Loading ..."])
    else
      (.error .NoDmChannel, { s with lock := lock1.erase user },
       [.createDm user])

/-- impl Drop for Conversation (src/conversation.rs lines 191-195): remove the
user from the lock set, unconditionally. -/
def Conversation.drop (c : Conversation) (s : ConvState) : ConvState :=
  { s with lock := s.lock.erase c.user }

/-- Conversation::timeout_msg (src/conversation.rs): send the timeout notice and
consume (drop) the conversation; the lock is released whether or not the send
succeeds. -/
def Conversation.timeout_msg (env : ConvEnv) (c : Conversation) (s : ConvState) :
    Except String Unit × ConvState × List Event :=
  ((if env.can_send_msg then .ok () else .error "MessageSendFailed"),
   c.drop s, [.sendMsg c.user "Conversation timed out"])

/-- Conversation::canceled_msg (src/conversation.rs): send the cancel notice and
consume (drop) the conversation. -/
def Conversation.canceled_msg (env : ConvEnv) (c : Conversation) (s : ConvState) :
    Except String Unit × ConvState × List Event :=
  ((if env.can_send_msg then .ok () else .error "MessageSendFailed"),
   c.drop s, [.sendMsg c.user "Conversation got canceled"])

/-- Conversation::unexpected_error (src/conversation.rs): reply with an apology
on the anchor message and consume (drop) the conversation. -/
def Conversation.unexpected_error (env : ConvEnv) (c : Conversation) (s : ConvState) :
    Except String Unit × ConvState × List Event :=
  ((if env.can_send_msg then .ok () else .error "MessageSendFailed"),
   c.drop s, [.reply "Unexpected error, Sorry =("])

/-- Conversation::finish_with_msg (src/conversation.rs): say the final content in
the DM channel and consume (drop) the conversation. -/
def Conversation.finish_with_msg (env : ConvEnv) (c : Conversation) (s : ConvState)
    (content : String) : Except String Unit × ConvState × List Event :=
  ((if env.can_send_msg then .ok () else .error "MessageSendFailed"),
   c.drop s, [.sendMsg c.user content])

/-- Conversation::abort (src/conversation.rs): optionally say a final message,
then consume (drop) the conversation. -/
def Conversation.abort (env : ConvEnv) (c : Conversation) (s : ConvState)
    (msg : Option String) : Except String Unit × ConvState × List Event :=
  match msg with
  | some m =>
    ((if env.can_send_msg then .ok () else .error "MessageSendFailed"),
     c.drop s, [.sendMsg c.user m])
  | none => (.ok (), c.drop s, [])

/-! ## Role-selection sub-protocol (spec 4.2; crate::utils is not under src/) -/

/-- Modelled from the spec: one input event of utils::select_roles (crate::utils,
which implements the protocol, is not under src/). The reaction collector is
already scoped to the conversation's user, so only owner events appear; an event
is a candidate role's emoji (resolved to that role), confirm, or cancel. -/
inductive SelEvent where
  | role (r : Role)
  | confirm
  | cancel
  deriving DecidableEq, Repr

/-- Modelled from the spec: the toggle step of utils::select_roles (crate::utils
is not under src/). Spec 4.2: "on a role emoji, move that role between the two
sets and re-render". The two HashSets are embedded as lists (selected,
unselected). -/
def toggle (r : Role) (p : List Role × List Role) : List Role × List Role :=
  if r ∈ p.1 then (p.1.erase r, r :: p.2)
  else if r ∈ p.2 then (r :: p.1, p.2.erase r)
  else p

/-- Modelled from the spec: utils::select_roles (crate::utils is not under src/).
Spec 4.2: wait for the next reaction event from the conversation's user; on a
role emoji toggle membership and loop; on confirm return success with the current
selected set; on cancel fail with Canceled; on timeout of a single wait step fail
with TimedOut (an exhausted event list is a wait step with no qualifying event). -/
def select_roles : List SelEvent → List Role × List Role →
    Except ConversationError (List Role × List Role)
  | [], _ => .error .TimedOut
  | .confirm :: _, p => .ok p
  | .cancel :: _, _ => .error .Canceled
  | .role r :: rest, p => select_roles rest (toggle r p)

/-! ## join_training (src/conversation.rs lines 201-394) -/

/-- NOT_REGISTERED (src/conversation.rs line 197). -/
def NOT_REGISTERED : String := "User not registered"

/-- NOT_OPEN (src/conversation.rs line 198). -/
def NOT_OPEN : String := "Training not found or not open"

/-- NOT_SIGNED_UP (src/conversation.rs line 199). -/
def NOT_SIGNED_UP : String := "Not signup found for user"

/-- Environment of join_training: the platform behaviour, the verify_tier
outcome, and the user's role-selection events. verify_tier lives in
crate::utils, which is not under src/; modelled from the spec: a Tier optionally
attached to the Training gates signup eligibility via an external has-role
check, so its outcome (pass flag and missing-tier name, or a backend error) is
an environment input. -/
structure JoinEnv where
  conv : ConvEnv
  verify_tier : Except String (Bool × String)
  sel_events : List SelEvent

/-- The candidate role list join_training offers the user (src/conversation.rs
lines 320-327): the training's TrainingRole rows, each resolved through
db::TrainingRole::role, with every load failure (deactivated or missing role)
dropped silently by filter_map. -/
def join_candidate_roles (db : Db) (t : Training) : List Role :=
  (Training.get_training_roles db t).filterMap
    (fun tr => (TrainingRole.role db tr).toOption)

/-- join_training (src/conversation.rs lines 201-394): start a Conversation;
look the user up (not registered ends the flow); load the open training; check
the tier requirement; refuse when a signup already exists; otherwise insert the
new Signup row, then run the role-selection protocol on the training's active
roles, and finally insert one SignupRole per selected role. Every exit path
consumes the conversation (releasing the lock); message edits that fail
propagate as errors exactly where the source applies the question-mark
operator. -/
def join_training (env : JoinEnv) (user : UserId) (training_id : Int)
    (s : ConvState) : Except String String × ConvState × List Event :=
  match Conversation.start env.conv user s with
  | (.error e, s1, ev0) => (.error e.message, s1, ev0)
  | (.ok conv, s1, ev0) =>
    match DbUser.by_discord_id s1.db user with
    | .error .notFound =>
      ((if env.conv.can_send_msg then .ok NOT_REGISTERED else .error "MessageSendFailed"),
       conv.drop s1, ev0 ++ [.editMsg "not_registered_embed"])
    | .error (.other m) =>
      (match Conversation.unexpected_error env.conv conv s1 with
       | (.ok _, s2, ev1) => (.error m, s2, ev0 ++ ev1)
       | (.error m2, s2, ev1) => (.error m2, s2, ev0 ++ ev1))
    | .ok db_user =>
      match Training.by_id_and_state s1.db training_id TrainingState.Open with
      | .error .notFound =>
        ((if env.conv.can_send_msg then .ok NOT_OPEN else .error "MessageSendFailed"),
         conv.drop s1, ev0 ++ [.editMsg "no_open_training_found"])
      | .error (.other m) =>
        (match Conversation.unexpected_error env.conv conv s1 with
         | (.ok _, s2, ev1) => (.error m, s2, ev0 ++ ev1)
         | (.error m2, s2, ev1) => (.error m2, s2, ev0 ++ ev1))
      | .ok training =>
        match env.verify_tier with
        | .error m =>
          (match Conversation.unexpected_error env.conv conv s1 with
           | (.ok _, s2, ev1) => (.error m, s2, ev0 ++ ev1)
           | (.error m2, s2, ev1) => (.error m2, s2, ev0 ++ ev1))
        | .ok (pass, _tier) =>
          if !pass then
            ((if env.conv.can_send_msg then .ok "Tier requirement not fulfilled"
              else .error "MessageSendFailed"),
             conv.drop s1, ev0 ++ [.editMsg "tier_not_fulfilled_embed"])
          else
            match Signup.by_user_and_training s1.db db_user training with
            | .ok _ =>
              ((if env.conv.can_send_msg then .ok "Already signed up"
                else .error "MessageSendFailed"),
               conv.drop s1, ev0 ++ [.editMsg "already_signed_up_embed"])
            | .error (.other m) =>
              (match Conversation.unexpected_error env.conv conv s1 with
               | (.ok _, s2, ev1) => (.error m, s2, ev0 ++ ev1)
               | (.error m2, s2, ev1) => (.error m2, s2, ev0 ++ ev1))
            | .error .notFound =>
              let sd := NewSignup.add s1.db
                { user_id := db_user.id, training_id := training.id }
              let signup := sd.1
              let s2 : ConvState := { s1 with db := sd.2 }
              if env.conv.can_send_msg then
                let ev1 := ev0 ++ [.editMsg "signed_up_select_roles"]
                let roles := join_candidate_roles s2.db training
                match select_roles env.sel_events ([], roles) with
                | .error .TimedOut =>
                  (match Conversation.timeout_msg env.conv conv s2 with
                   | (.ok _, s3, ev2) => (.ok "Timed out", s3, ev1 ++ ev2)
                   | (.error m, s3, ev2) => (.error m, s3, ev1 ++ ev2))
                | .error .Canceled =>
                  (match Conversation.canceled_msg env.conv conv s2 with
                   | (.ok _, s3, ev2) => (.ok "Canceled", s3, ev1 ++ ev2)
                   | (.error m, s3, ev2) => (.error m, s3, ev1 ++ ev2))
                | .error e =>
                  (match Conversation.unexpected_error env.conv conv s2 with
                   | (.ok _, s3, ev2) => (.error e.message, s3, ev1 ++ ev2)
                   | (.error m2, s3, ev2) => (.error m2, s3, ev1 ++ ev2))
                | .ok (sel, _unsel) =>
                  let ev2 := ev1 ++ [.editMsg "Saving roles..."]
                  let db3 := sel.foldl (fun d r =>
                    (NewSignupRole.add d { signup_id := signup.id, role_id := r.id }).2) s2.db
                  (.ok "Success", conv.drop { s2 with db := db3 },
                   ev2 ++ [.editMsg "successfully_signed_up_embed"])
              else
                (.error "MessageSendFailed", conv.drop s2,
                 ev0 ++ [.editMsg "signed_up_select_roles"])

/-! ## Fixed dialog timeout and wait semantics (src/commands.rs, src/conversation.rs) -/

/-- DEFAULT_TIMEOUT (src/commands.rs line 15): Duration::from_secs(60 * 3),
expressed here in seconds. -/
def DEFAULT_TIMEOUT : Nat := 60 * 3

/-- Configuration a serenity collector is built with: the author filter, the
channel or message it is scoped to, and the timeout in seconds. -/
structure CollectorCfg where
  author : UserId
  scope : Nat
  timeout : Nat
  deriving DecidableEq, Repr

/-- Conversation::await_reply (src/conversation.rs lines 151-157): collect the
user's next reply in the DM channel, with DEFAULT_TIMEOUT. -/
def Conversation.await_reply_cfg (c : Conversation) : CollectorCfg :=
  { author := c.user, scope := c.chan, timeout := DEFAULT_TIMEOUT }

/-- Conversation::await_replies (src/conversation.rs lines 159-165): stream of
the user's replies in the DM channel, with DEFAULT_TIMEOUT. -/
def Conversation.await_replies_cfg (c : Conversation) : CollectorCfg :=
  { author := c.user, scope := c.chan, timeout := DEFAULT_TIMEOUT }

/-- Conversation::await_reaction (src/conversation.rs lines 169-177): collect the
next reaction on the anchor message by the conversation's user, with
DEFAULT_TIMEOUT. -/
def Conversation.await_reaction_cfg (c : Conversation) : CollectorCfg :=
  { author := c.user, scope := c.msg_id, timeout := DEFAULT_TIMEOUT }

/-- Conversation::await_reactions (src/conversation.rs lines 180-188): stream of
reactions on the anchor message by the conversation's user, with
DEFAULT_TIMEOUT. -/
def Conversation.await_reactions_cfg (c : Conversation) : CollectorCfg :=
  { author := c.user, scope := c.msg_id, timeout := DEFAULT_TIMEOUT }

/-- Semantics of one collector wait: given the moment this wait begins and the
timeline of platform events (time, payload), the collector yields the first
qualifying event arriving within cfg.timeout of the start of this wait (the
clock starts when the wait begins, not at conversation start); none means this
wait step received no qualifying event in time. -/
def collectFirst {α : Type} (cfg : CollectorCfg) (start : Nat)
    (qualifies : α → Bool) (timeline : List (Nat × α)) : Option α :=
  ((timeline.filter (fun e =>
      qualifies e.2 && decide (start ≤ e.1) && decide (e.1 < start + cfg.timeout))).head?).map
    Prod.snd

/-- Outcome of one wait step as seen by the calling protocol. -/
inductive WaitOutcome (α : Type) where
  | timedOut
  | canceled
  | event (a : α)
  deriving DecidableEq, Repr

/-- Modelled from the spec: the wait-result translation done by the callers in
crate::utils (not under src/); spec 4.1: "A None result from a wait operation
means timed out and must be translated by the caller into the TimedOut terminal
case". A yielded event is passed through. -/
def waitOutcome {α : Type} (cfg : CollectorCfg) (start : Nat)
    (qualifies : α → Bool) (timeline : List (Nat × α)) : WaitOutcome α :=
  match collectFirst cfg start qualifies timeline with
  | none => .timedOut
  | some a => .event a

/-! ## Signup board (src/signup_board.rs lines 10-162) -/

/-- SIGNUP_BOARD_NAME (src/signup_board.rs line 10). -/
def SIGNUP_BOARD_NAME : String := "signup_board_id"

/-- Decimal value of a digit list (helper for the str::parse embedding). -/
def digitsVal (cs : List Char) : Nat :=
  cs.foldl (fun a c => a * 10 + (c.toNat - 48)) 0

/-- Rust str::parse::<i32>: an optional sign followed by one or more ASCII
digits, with the value within the i32 range; anything else fails
(src/signup_board.rs parses embed descriptions this way). -/
def parse_i32 (s : String) : Option Int :=
  let go : List Char → Option Int := fun cs =>
    match cs with
    | [] => none
    | c :: rest =>
      if c = '-' then
        if rest ≠ [] ∧ rest.all (fun d => d.isDigit) then
          some (-(digitsVal rest : Int))
        else none
      else if c = '+' then
        if rest ≠ [] ∧ rest.all (fun d => d.isDigit) then
          some ((digitsVal rest : Int))
        else none
      else if (c :: rest).all (fun d => d.isDigit) then
        some ((digitsVal (c :: rest) : Int))
      else none
  (go s.toList).bind (fun n =>
    if -2147483648 ≤ n ∧ n ≤ 2147483647 then some n else none)

/-- Rust str::replace with pattern "||" and empty replacement, as the board
scan applies it to embed descriptions: remove non-overlapping "||" occurrences
scanning left to right. -/
def strip_bars : List Char → List Char
  | [] => []
  | '|' :: '|' :: rest => strip_bars rest
  | c :: rest => c :: strip_bars rest

/-- Rust str::parse::<u64>: an optional plus sign followed by one or more ASCII
digits, with the value within the u64 range (src/signup_board.rs parses the
board category config value this way). -/
def parse_u64 (s : String) : Option Nat :=
  let go : List Char → Option Nat := fun cs =>
    match cs with
    | [] => none
    | c :: rest =>
      if c = '+' then
        if rest ≠ [] ∧ rest.all (fun d => d.isDigit) then some (digitsVal rest)
        else none
      else if (c :: rest).all (fun d => d.isDigit) then
        some (digitsVal (c :: rest))
      else none
  (go s.toList).bind (fun n =>
    if n ≤ 18446744073709551615 then some n else none)

/-- One embed of a Discord message; only the description matters to the board
scan (the source reads m.embeds.get(0) and its description). -/
structure BoardEmbed where
  description : Option String
  deriving DecidableEq, Repr

/-- A message in a signup-board channel. -/
structure BoardMsg where
  id : Nat
  embeds : List BoardEmbed
  deriving DecidableEq, Repr

/-- A guild channel: id, name and parent category. -/
structure GuildChannel where
  id : Nat
  name : String
  category_id : Option Nat
  deriving DecidableEq, Repr

/-- Environment of SignupBoard::update_training: the guild's channels, each
channel's message history (newest first, as Discord returns it), fresh ids for a
newly created channel or message, and the chrono CHANNEL_TIME_FORMAT rendering
of a training date (opaque, since dates are abstract integers here). -/
structure BoardEnv where
  guild_channels : List GuildChannel
  channel_msgs : Nat → List BoardMsg
  fresh_channel_id : Nat
  fresh_msg_id : Nat
  time_fmt_raw : Int → String

/-- Platform calls the signup board performs. -/
inductive BoardEvent where
  | createChannel (name : String)
  | editMsg (msg_id : Nat)
  | sendMsg (chan_id : Nat) (msg_id : Nat)
  deriving DecidableEq, Repr

/-- The in-memory DashMap<MessageId, Training> cache of the board. -/
abbrev BoardCache := List (Nat × Training)

/-- DashMap::insert on the message-id keyed cache: replace or add the entry. -/
def BoardCache.insert (cache : BoardCache) (k : Nat) (v : Training) : BoardCache :=
  (k, v) :: cache.filter (fun p => p.1 != k)

/-- Lookup in the message-id keyed cache. -/
def BoardCache.lookup (cache : BoardCache) (k : Nat) : Option Training :=
  (cache.find? (fun p => p.1 == k)).map Prod.snd

/-- The predicate the board scan applies to a channel message: its first embed
has a description that, with all "||" removed, parses as an i32 equal to this
training's id (src/signup_board.rs lines 97-107). -/
def boardMsgMatches (training : Training) (m : BoardMsg) : Bool :=
  match m.embeds.head? with
  | none => false
  | some e =>
    match e.description with
    | none => false
    | some d => (parse_i32 (String.mk (strip_bars d.toList))) == some training.id

/-- The channel name the board derives for a training (src/signup_board.rs
lines 67-72): the chrono CHANNEL_TIME_FORMAT rendering of the date, lowercased,
with spaces removed. -/
def board_time_fmt (env : BoardEnv) (t : Training) : String :=
  String.mk (((env.time_fmt_raw t.date).toList.map Char.toLower).filter
    (fun c => c != ' '))

/-- The channel the board targets (src/signup_board.rs lines 57-90): among the
guild channels of the board category, the one named after the training's date;
when absent, a fresh channel of that name is created (second component: the
create call traced). -/
def board_channel (env : BoardEnv) (cat : Nat) (t : Training) :
    GuildChannel × List BoardEvent :=
  let channels := env.guild_channels.filter (fun ch => ch.category_id == some cat)
  match channels.find? (fun ch => ch.name == board_time_fmt env t) with
  | some ch => (ch, [])
  | none =>
    ({ id := env.fresh_channel_id, name := board_time_fmt env t,
       category_id := some cat },
     [.createChannel (board_time_fmt env t)])

/-- The board scan (src/signup_board.rs lines 92-107): among the last (up to)
100 messages of the channel, the first whose embed description encodes this
training's id. -/
def board_found_msg (env : BoardEnv) (chan_id : Nat) (t : Training) :
    Option BoardMsg :=
  ((env.channel_msgs chan_id).take 100).find? (boardMsgMatches t)

/-- SignupBoard::update_training (src/signup_board.rs lines 32-162): reload the
training and reject any state outside Open/Closed/Started; resolve the board
category from the config table; find the channel named after the training's
date, creating it when absent; scan the last (up to) 100 messages of that
channel for one matching the training id; load roles and tier (a configured but
missing tier propagates an error); then edit the found message in place or post
a new one, and insert the message-id -> training entry into the in-memory
cache. Returns the edited or posted message id. -/
def SignupBoard.update_training (env : BoardEnv) (db : Db) (cache : BoardCache)
    (training_id : Int) : Except String (Option Nat) × BoardCache × List BoardEvent :=
  match Training.by_id db training_id with
  | .error _ => (.error "training not found", cache, [])
  | .ok training =>
    match training.state with
    | .Open | .Closed | .Started =>
      (match ConfigRow.load db SIGNUP_BOARD_NAME with
       | .error _ => (.error "config not found", cache, [])
       | .ok cfg =>
         match parse_u64 cfg.value with
         | none => (.error "config parse error", cache, [])
         | some channel_category =>
           let cev := board_channel env channel_category training
           match Training.get_tier db training with
           | some (.error _) => (.error "tier not found", cache, cev.2)
           | _ =>
             match board_found_msg env cev.1.id training with
             | some m =>
               (.ok (some m.id), BoardCache.insert cache m.id training,
                cev.2 ++ [.editMsg m.id])
             | none =>
               (.ok (some env.fresh_msg_id),
                BoardCache.insert cache env.fresh_msg_id training,
                cev.2 ++ [.sendMsg cev.1.id env.fresh_msg_id]))
    | _ => (.error "Invalid training state for signup board", cache, [])

/-! ## Concrete fixtures used by witnesses and counterexamples -/

/-- An active sample role. -/
def roleA : Role := { id := 1, title := "Shield", repr := "A", emoji := 100, active := true }

/-- A second active sample role. -/
def roleB : Role := { id := 2, title := "Sword", repr := "B", emoji := 101, active := true }

/-- A deactivated sample role. -/
def roleOld : Role := { id := 3, title := "Old", repr := "C", emoji := 102, active := false }

/-- A sample database: one registered user, one open training (id 7) with roles
A, B and the deactivated role attached, no signups yet. -/
def sampleDb : Db :=
  { users := [{ id := 1, discord_id := 5, gw2_id := "x.1234" }]
    trainings := [{ id := 7, title := "Beginner", date := 0, state := .Open, tier_id := none }]
    roles := [roleA, roleB, roleOld]
    training_roles := [{ id := 1, training_id := 7, role_id := 1 },
                       { id := 2, training_id := 7, role_id := 2 },
                       { id := 3, training_id := 7, role_id := 3 }]
    signups := []
    signup_roles := []
    tiers := []
    tier_mappings := []
    config := [{ name := "signup_board_id", value := "42" }]
    next_signup_id := 10
    next_signup_role_id := 20 }

/-- Process state with no conversation lock held. -/
def sampleState : ConvState := { lock := ∅, db := sampleDb }

/-- Process state in which user 5 already holds the conversation lock. -/
def lockedState : ConvState := { lock := {5}, db := sampleDb }

/-- A platform where DM creation and message sending both succeed. -/
def envOk : ConvEnv := { can_create_dm := true, can_send_msg := true }

/-- join_training environment in which the user lets role selection time out. -/
def joinEnvTimeout : JoinEnv :=
  { conv := envOk, verify_tier := .ok (true, ""), sel_events := [] }

/-- Board message fixture whose embed description encodes training 7. -/
def boardMsg7 : BoardMsg := { id := 55, embeds := [{ description := some "||7||" }] }

/-- Sample board environment: one category-42 channel named "x" holding the
training-7 board message; dates render as "X". -/
def boardEnvSample : BoardEnv :=
  { guild_channels := [{ id := 100, name := "x", category_id := some 42 }]
    channel_msgs := fun c => if c = 100 then [boardMsg7] else []
    fresh_channel_id := 200
    fresh_msg_id := 300
    time_fmt_raw := fun _ => "X" }

/-- The sample database extended with a Created training (id 9) for the board
reject case. -/
def boardDb : Db :=
  { sampleDb with trainings :=
      [{ id := 7, title := "Beginner", date := 0, state := .Open, tier_id := none },
       { id := 9, title := "Draft", date := 0, state := .Created, tier_id := none }] }

/-- The sample database with an existing signup of user 1 for training 7. -/
def signedDb : Db :=
  { sampleDb with signups := [{ id := 3, user_id := 1, training_id := 7 }] }

/-! ## Claim theorems -/

/-- C2: at most one Conversation is Active per user, process-wide. A second
Conversation::start while the user is locked fails with ConversationLocked,
changes no state (takes no lock) and performs no platform call (in particular
opens no second DM channel); and start can only return a live Conversation when
the user was not locked, registering the user in the lock set. -/
theorem conversation_start_exclusive (env : ConvEnv) (u : UserId) (s : ConvState) :
    (u ∈ s.lock →
      Conversation.start env u s = (.error .ConversationLocked, s, [])) ∧
    (∀ c s2 ev, Conversation.start env u s = (.ok c, s2, ev) →
      u ∉ s.lock ∧ u ∈ s2.lock) := by
  constructor
  · intro h
    simp [Conversation.start, h]
  · intro c s2 ev h
    by_cases hm : u ∈ s.lock
    · simp [Conversation.start, hm] at h
    · refine ⟨hm, ?_⟩
      by_cases hdm : env.can_create_dm
      · by_cases hsend : env.can_send_msg
        · simp [Conversation.start, hm, hdm, hsend] at h
          rw [← h.2.1]
          exact Finset.mem_insert_self u s.lock
        · simp [Conversation.start, hm, hdm, hsend] at h
      · simp [Conversation.start, hm, hdm] at h

/-- Witness for C2: user 5 is locked in lockedState, so a second start fails
with ConversationLocked and no events; from the unlocked sampleState a start
succeeds and registers user 5. -/
theorem conversation_start_exclusive_witness :
    (5 ∈ lockedState.lock ∧
      Conversation.start envOk 5 lockedState = (.error .ConversationLocked, lockedState, [])) ∧
    (5 ∉ sampleState.lock ∧
      5 ∈ (Conversation.start envOk 5 sampleState).2.1.lock) := by
  refine ⟨⟨by decide, (conversation_start_exclusive envOk 5 lockedState).1 (by decide)⟩, ?_⟩
  exact (conversation_start_exclusive envOk 5 sampleState).2
    { user := 5, chan := 5, msg_id := 0 }
    { sampleState with lock := insert 5 sampleState.lock }
    [.createDm 5, .sendMsg 5 "Loading ..."] (by decide)

/-- C3: every terminal operation of a Conversation (finish_with_msg, abort,
timeout_msg, canceled_msg, unexpected_error, plain drop) ends in the dropped
state, whose lock set no longer contains the user; a subsequent start for the
same user therefore never returns ConversationLocked, and with a working
platform it succeeds outright. -/
theorem conversation_terminal_releases_lock (env env2 : ConvEnv) (c : Conversation)
    (s : ConvState) (content : String) (m : Option String) :
    ((Conversation.timeout_msg env c s).2.1 = c.drop s ∧
     (Conversation.canceled_msg env c s).2.1 = c.drop s ∧
     (Conversation.unexpected_error env c s).2.1 = c.drop s ∧
     (Conversation.finish_with_msg env c s content).2.1 = c.drop s ∧
     (Conversation.abort env c s m).2.1 = c.drop s) ∧
    c.user ∉ (c.drop s).lock ∧
    (Conversation.start env2 c.user (c.drop s)).1 ≠ .error .ConversationLocked ∧
    (env2.can_create_dm = true → env2.can_send_msg = true →
      Conversation.start env2 c.user (c.drop s) =
        (.ok { user := c.user, chan := c.user, msg_id := 0 },
         { lock := insert c.user ((c.drop s).lock), db := s.db },
         [.createDm c.user, .sendMsg c.user "Loading ..."])) := by
  have hout : c.user ∉ (c.drop s).lock := Finset.not_mem_erase c.user s.lock
  refine ⟨⟨rfl, rfl, rfl, rfl, ?_⟩, hout, ?_, ?_⟩
  · cases m <;> rfl
  · by_cases hdm : env2.can_create_dm <;> by_cases hsend : env2.can_send_msg <;>
      simp [Conversation.start, hout, hdm, hsend]
  · intro hdm hsend
    simp [Conversation.start, hout, hdm, hsend, Conversation.drop]

/-- Witness for C3: after user 5 times out of a conversation, the lock is gone
and an immediate restart succeeds. -/
theorem conversation_terminal_releases_lock_witness :
    Conversation.start envOk 5
        ((Conversation.timeout_msg envOk { user := 5, chan := 5, msg_id := 0 }
          lockedState).2.1) =
      (.ok { user := 5, chan := 5, msg_id := 0 },
       { lock := insert 5 (({5} : Finset Nat).erase 5), db := sampleDb },
       [.createDm 5, .sendMsg 5 "Loading ..."]) := by
  have h := (conversation_terminal_releases_lock envOk envOk
    { user := 5, chan := 5, msg_id := 0 } lockedState "done" none).2.2.2 rfl rfl
  exact h

/-- C4: Conversation::start construction failures are atomic. With the user not
locked: if the DM channel cannot be created, start returns NoDmChannel, the
final state equals the initial state (lock entry removed, database untouched)
and only the failed create_dm call happened; if the channel opens but the
anchor message cannot be sent, start returns DmBlocked with the state again
fully restored. -/
theorem conversation_start_failure_atomic (env : ConvEnv) (u : UserId)
    (s : ConvState) (hu : u ∉ s.lock) :
    (env.can_create_dm = false →
      Conversation.start env u s = (.error .NoDmChannel, s, [.createDm u])) ∧
    (env.can_create_dm = true → env.can_send_msg = false →
      Conversation.start env u s =
        (.error .DmBlocked, s, [.createDm u, .sendMsg u "Loading ..."])) := by
  constructor
  · intro hdm
    simp [Conversation.start, hu, hdm, Finset.erase_insert hu]
  · intro hdm hsend
    simp [Conversation.start, hu, hdm, hsend, Finset.erase_insert hu]

/-- Witness for C4: concrete failing platforms for user 5 starting from the
unlocked sampleState. -/
theorem conversation_start_failure_atomic_witness :
    Conversation.start { can_create_dm := false, can_send_msg := true } 5 sampleState =
      (.error .NoDmChannel, sampleState, [.createDm 5]) ∧
    Conversation.start { can_create_dm := true, can_send_msg := false } 5 sampleState =
      (.error .DmBlocked, sampleState, [.createDm 5, .sendMsg 5 "Loading ..."]) :=
  ⟨(conversation_start_failure_atomic _ 5 sampleState (by decide)).1 rfl,
   (conversation_start_failure_atomic _ 5 sampleState (by decide)).2 rfl rfl⟩

/-- Membership action of one toggle step on a disjoint duplicate-free
partition: the toggled role swaps sides when it is covered, every other role
stays put, and the invariants are preserved. -/
theorem toggle_mem (r : Role) (p : List Role × List Role)
    (h1 : p.1.Nodup) (h2 : p.2.Nodup) (hd : ∀ x, x ∈ p.1 → x ∉ p.2) :
    ((toggle r p).1.Nodup ∧ (toggle r p).2.Nodup ∧
      (∀ x, x ∈ (toggle r p).1 → x ∉ (toggle r p).2)) ∧
    (∀ x, x ≠ r →
      ((x ∈ (toggle r p).1 ↔ x ∈ p.1) ∧ (x ∈ (toggle r p).2 ↔ x ∈ p.2))) ∧
    ((r ∈ p.1 ∨ r ∈ p.2) →
      ((r ∈ (toggle r p).1 ↔ r ∈ p.2) ∧ (r ∈ (toggle r p).2 ↔ r ∈ p.1))) := by
  by_cases hr1 : r ∈ p.1
  · have ht : toggle r p = (p.1.erase r, r :: p.2) := by simp [toggle, hr1]
    rw [ht]
    have hr2 : r ∉ p.2 := hd r hr1
    refine ⟨⟨h1.erase r, List.nodup_cons.mpr ⟨hr2, h2⟩, ?_⟩, ?_, ?_⟩
    · intro x hx
      rw [h1.mem_erase_iff] at hx
      simp only [List.mem_cons]
      push_neg
      exact ⟨hx.1, hd x hx.2⟩
    · intro x hx
      constructor
      · rw [h1.mem_erase_iff]
        simp [hx]
      · simp [List.mem_cons, hx]
    · intro _
      constructor
      · rw [h1.mem_erase_iff]
        simp [hr2]
      · simp [List.mem_cons, hr1]
  · by_cases hr2 : r ∈ p.2
    · have ht : toggle r p = (r :: p.1, p.2.erase r) := by simp [toggle, hr1, hr2]
      rw [ht]
      refine ⟨⟨List.nodup_cons.mpr ⟨hr1, h1⟩, h2.erase r, ?_⟩, ?_, ?_⟩
      · intro x hx
        simp only [List.mem_cons] at hx
        rw [h2.mem_erase_iff]
        rcases hx with hx | hx
        · subst hx; simp
        · intro hc
          exact hd x hx hc.2
      · intro x hx
        constructor
        · simp [List.mem_cons, hx]
        · rw [h2.mem_erase_iff]
          simp [hx]
      · intro _
        constructor
        · simp [List.mem_cons, hr2]
        · rw [h2.mem_erase_iff]
          simp [hr1]
    · have ht : toggle r p = p := by simp [toggle, hr1, hr2]
      rw [ht]
      refine ⟨⟨h1, h2, hd⟩, fun x _ => ⟨Iff.rfl, Iff.rfl⟩, ?_⟩
      rintro (h | h)
      · exact absurd h hr1
      · exact absurd h hr2

/-- Iterating toggle preserves the partition invariants and acts on the toggled
role by the parity of the iteration count. -/
theorem toggle_iterate (r : Role) (n : Nat) :
    ∀ p : List Role × List Role, p.1.Nodup → p.2.Nodup →
      (∀ x, x ∈ p.1 → x ∉ p.2) → (r ∈ p.1 ∨ r ∈ p.2) →
      (((toggle r)^[n] p).1.Nodup ∧ ((toggle r)^[n] p).2.Nodup ∧
        (∀ x, x ∈ ((toggle r)^[n] p).1 → x ∉ ((toggle r)^[n] p).2) ∧
        (r ∈ ((toggle r)^[n] p).1 ∨ r ∈ ((toggle r)^[n] p).2)) ∧
      (∀ x, x ≠ r →
        ((x ∈ ((toggle r)^[n] p).1 ↔ x ∈ p.1) ∧
         (x ∈ ((toggle r)^[n] p).2 ↔ x ∈ p.2))) ∧
      (n % 2 = 0 →
        ((r ∈ ((toggle r)^[n] p).1 ↔ r ∈ p.1) ∧
         (r ∈ ((toggle r)^[n] p).2 ↔ r ∈ p.2))) ∧
      (n % 2 = 1 →
        ((r ∈ ((toggle r)^[n] p).1 ↔ r ∈ p.2) ∧
         (r ∈ ((toggle r)^[n] p).2 ↔ r ∈ p.1))) := by
  induction n with
  | zero =>
    intro p h1 h2 hd hr
    exact ⟨⟨h1, h2, hd, hr⟩, by simp, by simp, by simp⟩
  | succ n ih =>
    intro p h1 h2 hd hr
    obtain ⟨⟨q1, q2, qd, qr⟩, hoth, heven, hodd⟩ := ih p h1 h2 hd hr
    have hstep := toggle_mem r ((toggle r)^[n] p) q1 q2 qd
    rw [Function.iterate_succ_apply']
    obtain ⟨⟨s1, s2, sd⟩, soth, scov⟩ := hstep
    have scov2 := scov qr
    refine ⟨⟨s1, s2, sd, ?_⟩, ?_, ?_, ?_⟩
    · rcases qr with h | h
      · exact Or.inr (scov2.2.mpr h)
      · exact Or.inl (scov2.1.mpr h)
    · intro x hx
      have a := soth x hx
      have b := hoth x hx
      exact ⟨a.1.trans b.1, a.2.trans b.2⟩
    · intro hpar
      have hn : n % 2 = 1 := by omega
      have b := hodd hn
      exact ⟨scov2.1.trans b.2, scov2.2.trans b.1⟩
    · intro hpar
      have hn : n % 2 = 0 := by omega
      have b := heven hn
      exact ⟨scov2.1.trans b.2, scov2.2.trans b.1⟩

/-- C8: in the role-selection protocol, starting from any disjoint
duplicate-free (selected, unselected) partition that covers role r, toggling r
an even number of times returns the partition to its starting configuration
(identical membership on both sides for every role), and an odd number of times
flips exactly r's membership between the two sets while changing no other
role's membership. -/
theorem toggle_parity (r : Role) (p : List Role × List Role) (n : Nat)
    (h1 : p.1.Nodup) (h2 : p.2.Nodup) (hd : ∀ x, x ∈ p.1 → x ∉ p.2)
    (hr : r ∈ p.1 ∨ r ∈ p.2) :
    (n % 2 = 0 → ∀ x,
      ((x ∈ ((toggle r)^[n] p).1 ↔ x ∈ p.1) ∧
       (x ∈ ((toggle r)^[n] p).2 ↔ x ∈ p.2))) ∧
    (n % 2 = 1 →
      (∀ x, x ≠ r →
        ((x ∈ ((toggle r)^[n] p).1 ↔ x ∈ p.1) ∧
         (x ∈ ((toggle r)^[n] p).2 ↔ x ∈ p.2))) ∧
      ((r ∈ ((toggle r)^[n] p).1 ↔ r ∈ p.2) ∧
       (r ∈ ((toggle r)^[n] p).2 ↔ r ∈ p.1))) := by
  obtain ⟨_, hoth, heven, hodd⟩ := toggle_iterate r n p h1 h2 hd hr
  refine ⟨?_, fun hpar => ⟨hoth, hodd hpar⟩⟩
  intro hpar x
  by_cases hx : x = r
  · subst hx
    exact heven hpar
  · exact hoth x hx

/-- Witness for C8: toggling role A twice on ([A], [B]) restores A's
membership; toggling three times moves A to the unselected side. -/
theorem toggle_parity_witness :
    (roleA ∈ ((toggle roleA)^[2] ([roleA], [roleB])).1 ↔ roleA ∈ [roleA]) ∧
    (roleA ∈ ((toggle roleA)^[3] ([roleA], [roleB])).2 ↔ roleA ∈ [roleA]) := by
  have hd : ∀ x, x ∈ [roleA] → x ∉ [roleB] := by
    intro x hx
    simp only [List.mem_singleton] at hx
    subst hx
    decide
  constructor
  · exact ((toggle_parity roleA ([roleA], [roleB]) 2 (by decide) (by decide) hd
      (by left; decide)).1 rfl roleA).1
  · exact ((toggle_parity roleA ([roleA], [roleB]) 3 (by decide) (by decide) hd
      (by left; decide)).2 rfl).2.2

/-- C7: every wait operation of a Conversation (await_reply, await_replies,
await_reaction, await_reactions) is built with the same fixed dialog timeout
DEFAULT_TIMEOUT = 3 minutes, measured from the moment that wait begins (the
collector window starts at the wait's own start time); a wait step during
which no qualifying event arrives within that window yields the TimedOut
outcome, never Canceled and never a delivered event. -/
theorem wait_fixed_timeout {α : Type} (c : Conversation) (start : Nat)
    (qualifies : α → Bool) (timeline : List (Nat × α))
    (h : ∀ e ∈ timeline,
      ¬ (qualifies e.2 = true ∧ start ≤ e.1 ∧ e.1 < start + DEFAULT_TIMEOUT)) :
    DEFAULT_TIMEOUT = 180 ∧
    c.await_reply_cfg.timeout = DEFAULT_TIMEOUT ∧
    c.await_replies_cfg.timeout = DEFAULT_TIMEOUT ∧
    c.await_reaction_cfg.timeout = DEFAULT_TIMEOUT ∧
    c.await_reactions_cfg.timeout = DEFAULT_TIMEOUT ∧
    waitOutcome c.await_reply_cfg start qualifies timeline = .timedOut ∧
    waitOutcome c.await_reaction_cfg start qualifies timeline = .timedOut := by
  have hfilter : ∀ cfg : CollectorCfg, cfg.timeout = DEFAULT_TIMEOUT →
      waitOutcome cfg start qualifies timeline = .timedOut := by
    intro cfg hcfg
    have hnil : timeline.filter (fun e =>
        qualifies e.2 && decide (start ≤ e.1) &&
          decide (e.1 < start + cfg.timeout)) = [] := by
      rw [List.filter_eq_nil_iff]
      intro e he
      have := h e he
      rw [hcfg]
      simp only [Bool.and_eq_true, decide_eq_true_eq]
      rintro ⟨⟨hq, hle⟩, hlt⟩
      exact this ⟨hq, hle, hlt⟩
    unfold waitOutcome collectFirst
    rw [hnil]
    rfl
  exact ⟨rfl, rfl, rfl, rfl, rfl, hfilter _ rfl, hfilter _ rfl⟩

/-- Witness for C7: a timeline whose only event arrives 500 seconds after the
wait begins (past the 180-second window) times the wait out. -/
theorem wait_fixed_timeout_witness :
    waitOutcome (Conversation.await_reaction_cfg { user := 5, chan := 5, msg_id := 0 })
        0 (fun _ => true) [(500, 1)] = WaitOutcome.timedOut := by
  have h := wait_fixed_timeout (α := Nat) { user := 5, chan := 5, msg_id := 0 } 0
    (fun _ => true) [(500, 1)] (by decide)
  exact h.2.2.2.2.2.2

/-- C5: SignupBoard::update_training on a training whose reloaded state is not
Open, Closed or Started returns an error having created no channel, posted no
message, edited no message (empty call trace) and left the in-memory cache
untouched. -/
theorem board_rejects_bad_state (env : BoardEnv) (db : Db) (cache : BoardCache)
    (tid : Int) (t : Training) (hby : Training.by_id db tid = .ok t)
    (h1 : t.state ≠ .Open) (h2 : t.state ≠ .Closed) (h3 : t.state ≠ .Started) :
    SignupBoard.update_training env db cache tid =
      (.error "Invalid training state for signup board", cache, []) := by
  simp only [SignupBoard.update_training, hby]

/-- Witness for C5: training 9 is in Created state, so the board refresh is
rejected without any platform call or cache change. -/
theorem board_rejects_bad_state_witness :
    Training.by_id boardDb 9 =
      .ok { id := 9, title := "Draft", date := 0, state := .Created, tier_id := none } ∧
    SignupBoard.update_training boardEnvSample boardDb [] 9 =
      (.error "Invalid training state for signup board", [], []) :=
  ⟨by decide,
   board_rejects_bad_state boardEnvSample boardDb [] 9
     { id := 9, title := "Draft", date := 0, state := .Created, tier_id := none }
     (by decide) (by decide) (by decide) (by decide)⟩

/-- Looking up the entry just written by a cache insert yields the new value. -/
theorem BoardCache.lookup_insert (cache : BoardCache) (k : Nat) (v : Training) :
    BoardCache.lookup (BoardCache.insert cache k v) k = some v := by
  simp [BoardCache.lookup, BoardCache.insert]

/-- C6: on a successful board refresh the scan looks at no more than the last
100 messages of the date channel (board_found_msg takes 100 before searching);
a message found there is edited in place, otherwise a new message is posted to
the resolved channel; and in either case the in-memory cache entry for the
returned message id is the reloaded training. -/
theorem board_update_edit_or_post (env : BoardEnv) (db : Db) (cache : BoardCache)
    (tid : Int) (t : Training) (cfg : ConfigRow) (cat : Nat)
    (hby : Training.by_id db tid = .ok t)
    (hstate : t.state = .Open ∨ t.state = .Closed ∨ t.state = .Started)
    (hcfg : ConfigRow.load db SIGNUP_BOARD_NAME = .ok cfg)
    (hcat : parse_u64 cfg.value = some cat)
    (htier : ∀ e : DbErr, Training.get_tier db t ≠ some (.error e)) :
    (∀ m, board_found_msg env (board_channel env cat t).1.id t = some m →
      SignupBoard.update_training env db cache tid =
        (.ok (some m.id), BoardCache.insert cache m.id t,
         (board_channel env cat t).2 ++ [.editMsg m.id])) ∧
    (board_found_msg env (board_channel env cat t).1.id t = none →
      SignupBoard.update_training env db cache tid =
        (.ok (some env.fresh_msg_id), BoardCache.insert cache env.fresh_msg_id t,
         (board_channel env cat t).2 ++
           [.sendMsg (board_channel env cat t).1.id env.fresh_msg_id])) ∧
    (∀ mid, (SignupBoard.update_training env db cache tid).1 = .ok (some mid) →
      BoardCache.lookup (SignupBoard.update_training env db cache tid).2.1 mid =
        some t) := by
  have hmain : SignupBoard.update_training env db cache tid =
      (match board_found_msg env (board_channel env cat t).1.id t with
       | some m =>
         (.ok (some m.id), BoardCache.insert cache m.id t,
          (board_channel env cat t).2 ++ [.editMsg m.id])
       | none =>
         (.ok (some env.fresh_msg_id), BoardCache.insert cache env.fresh_msg_id t,
          (board_channel env cat t).2 ++
            [.sendMsg (board_channel env cat t).1.id env.fresh_msg_id])) := by
    simp only [SignupBoard.update_training, hby]
    rcases hstate with hs | hs | hs <;> rw [hs] <;> simp only [hcfg, hcat]
  refine ⟨?_, ?_, ?_⟩
  · intro m hm
    rw [hmain, hm]
  · intro hm
    rw [hmain, hm]
  · intro mid hmid
    rcases hf : board_found_msg env (board_channel env cat t).1.id t with _ | m
    · rw [hmain, hf] at hmid ⊢
      simp only [Except.ok.injEq, Option.some.injEq] at hmid
      subst hmid
      exact BoardCache.lookup_insert cache env.fresh_msg_id t
    · rw [hmain, hf] at hmid ⊢
      simp only [Except.ok.injEq, Option.some.injEq] at hmid
      subst hmid
      exact BoardCache.lookup_insert cache m.id t

/-- Witness for C6: refreshing open training 7 finds its board message (id 55)
among the channel messages, edits it in place and caches message 55 as showing
training 7. -/
theorem board_update_edit_or_post_witness :
    SignupBoard.update_training boardEnvSample boardDb [] 7 =
      (.ok (some boardMsg7.id), BoardCache.insert [] boardMsg7.id
        { id := 7, title := "Beginner", date := 0, state := .Open, tier_id := none },
       (board_channel boardEnvSample 42
          { id := 7, title := "Beginner", date := 0, state := .Open,
            tier_id := none }).2 ++ [.editMsg boardMsg7.id]) := by
  have htier : ∀ e : DbErr,
      Training.get_tier boardDb
        { id := 7, title := "Beginner", date := 0, state := .Open,
          tier_id := none } ≠ some (.error e) := by
    intro e h
    have hnone : Training.get_tier boardDb
        { id := 7, title := "Beginner", date := 0, state := .Open,
          tier_id := none } = none := rfl
    rw [hnone] at h
    exact Option.noConfusion h
  exact (board_update_edit_or_post boardEnvSample boardDb [] 7
    { id := 7, title := "Beginner", date := 0, state := .Open, tier_id := none }
    { name := "signup_board_id", value := "42" } 42
    (by decide) (Or.inl rfl) (by decide) (by decide) htier).1 boardMsg7 (by decide)

/-- Unfolding of join_training along the fresh-signup path (user registered,
training open, tier passed, no prior signup): the Signup row is inserted before
role selection runs, and the outcome of select_roles decides only the tail of
the flow. -/
theorem join_training_fresh_path (env : JoinEnv) (u : UserId) (tid : Int)
    (s : ConvState) (du : DbUser) (t : Training) (tname : String)
    (hlock : u ∉ s.lock) (hdm : env.conv.can_create_dm = true)
    (hsend : env.conv.can_send_msg = true)
    (huser : DbUser.by_discord_id s.db u = .ok du)
    (htrain : Training.by_id_and_state s.db tid TrainingState.Open = .ok t)
    (htier : env.verify_tier = .ok (true, tname))
    (hsg : Signup.by_user_and_training s.db du t = .error .notFound) :
    join_training env u tid s =
      (match select_roles env.sel_events ([], join_candidate_roles s.db t) with
       | .error .TimedOut =>
         (.ok "Timed out",
          { lock := s.lock,
            db := (NewSignup.add s.db { user_id := du.id, training_id := t.id }).2 },
          [.createDm u, .sendMsg u "Loading ...", .editMsg "signed_up_select_roles",
           .sendMsg u "Conversation timed out"])
       | .error .Canceled =>
         (.ok "Canceled",
          { lock := s.lock,
            db := (NewSignup.add s.db { user_id := du.id, training_id := t.id }).2 },
          [.createDm u, .sendMsg u "Loading ...", .editMsg "signed_up_select_roles",
           .sendMsg u "Conversation got canceled"])
       | .error e =>
         (.error e.message,
          { lock := s.lock,
            db := (NewSignup.add s.db { user_id := du.id, training_id := t.id }).2 },
          [.createDm u, .sendMsg u "Loading ...", .editMsg "signed_up_select_roles",
           .reply "Unexpected error, Sorry =("])
       | .ok (sel, _unsel) =>
         (.ok "Success",
          { lock := s.lock,
            db := sel.foldl (fun d r =>
              (NewSignupRole.add d
                { signup_id :=
                    (NewSignup.add s.db
                      { user_id := du.id, training_id := t.id }).1.id,
                  role_id := r.id }).2)
              (NewSignup.add s.db { user_id := du.id, training_id := t.id }).2 },
          [.createDm u, .sendMsg u "Loading ...", .editMsg "signed_up_select_roles",
           .editMsg "Saving roles...", .editMsg "successfully_signed_up_embed"])) := by
  have hroles : join_candidate_roles
      (NewSignup.add s.db { user_id := du.id, training_id := t.id }).2 t =
      join_candidate_roles s.db t := rfl
  simp [join_training, Conversation.start, hlock, hdm, hsend, huser, htrain, htier,
    hsg, Conversation.drop, Conversation.timeout_msg, Conversation.canceled_msg,
    Conversation.unexpected_error, hroles, Finset.erase_insert hlock]

/-- Unfolding of join_training along the already-signed-up path: the flow stops
with the Already signed up notice, and the database is untouched. -/
theorem join_training_already_path (env : JoinEnv) (u : UserId) (tid : Int)
    (s : ConvState) (du : DbUser) (t : Training) (tname : String) (sg : Signup)
    (hlock : u ∉ s.lock) (hdm : env.conv.can_create_dm = true)
    (hsend : env.conv.can_send_msg = true)
    (huser : DbUser.by_discord_id s.db u = .ok du)
    (htrain : Training.by_id_and_state s.db tid TrainingState.Open = .ok t)
    (htier : env.verify_tier = .ok (true, tname))
    (hsg : Signup.by_user_and_training s.db du t = .ok sg) :
    join_training env u tid s =
      (.ok "Already signed up", { lock := s.lock, db := s.db },
       [.createDm u, .sendMsg u "Loading ...",
        .editMsg "already_signed_up_embed"]) := by
  simp [join_training, Conversation.start, hlock, hdm, hsend, huser, htrain, htier,
    hsg, Conversation.drop, Finset.erase_insert hlock]

/-- Folding signup-role inserts over a role list never touches the signups
table. -/
theorem foldl_signup_role_add_signups (l : List Role) (sgid : Int) (db : Db) :
    (l.foldl (fun d r =>
      (NewSignupRole.add d { signup_id := sgid, role_id := r.id }).2) db).signups =
      db.signups := by
  induction l generalizing db with
  | nil => rfl
  | cons r rest ih => simpa [NewSignupRole.add] using ih _

/-- A not-found signup lookup means no row of the signups table matches the
(user, training) pair. -/
theorem by_user_and_training_notFound (db : Db) (du : DbUser) (t : Training)
    (h : Signup.by_user_and_training db du t = .error .notFound) :
    db.signups.filter
      (fun sg => sg.user_id == du.id && sg.training_id == t.id) = [] := by
  unfold Signup.by_user_and_training at h
  rcases hf : db.signups.find?
      (fun sg => sg.user_id == du.id && sg.training_id == t.id) with _ | sg
  · rw [List.filter_eq_nil_iff]
    intro a ha
    have hnone := List.find?_eq_none.mp hf a ha
    simpa using hnone
  · rw [hf] at h
    simp at h

/-- C9: at most one Signup per (user, training): join_training looks the signup
up first; when one exists it answers Already signed up and leaves the signups
table unchanged (no insert); only when the lookup said not-found is a single
new Signup row for (user, training) appended - and since not-found means no row
matched the pair, the final table holds exactly one row for that pair. -/
theorem join_lookup_before_insert (env : JoinEnv) (u : UserId) (tid : Int)
    (s : ConvState) (du : DbUser) (t : Training) (tname : String)
    (hlock : u ∉ s.lock) (hdm : env.conv.can_create_dm = true)
    (hsend : env.conv.can_send_msg = true)
    (huser : DbUser.by_discord_id s.db u = .ok du)
    (htrain : Training.by_id_and_state s.db tid TrainingState.Open = .ok t)
    (htier : env.verify_tier = .ok (true, tname)) :
    (∀ sg, Signup.by_user_and_training s.db du t = .ok sg →
      (join_training env u tid s).1 = .ok "Already signed up" ∧
      (join_training env u tid s).2.1.db = s.db) ∧
    (Signup.by_user_and_training s.db du t = .error .notFound →
      (join_training env u tid s).2.1.db.signups =
        s.db.signups ++
          [{ id := s.db.next_signup_id, user_id := du.id, training_id := t.id }] ∧
      (join_training env u tid s).2.1.db.signups.filter
          (fun sg => sg.user_id == du.id && sg.training_id == t.id) =
        [{ id := s.db.next_signup_id, user_id := du.id, training_id := t.id }]) := by
  constructor
  · intro sg hsg
    rw [join_training_already_path env u tid s du t tname sg
      hlock hdm hsend huser htrain htier hsg]
    exact ⟨rfl, rfl⟩
  · intro hsg
    have hmain := join_training_fresh_path env u tid s du t tname
      hlock hdm hsend huser htrain htier hsg
    have hsignups : (join_training env u tid s).2.1.db.signups =
        s.db.signups ++
          [{ id := s.db.next_signup_id, user_id := du.id, training_id := t.id }] := by
      rw [hmain]
      rcases select_roles env.sel_events ([], join_candidate_roles s.db t) with e | pr
      · rcases e with _ | _ | _ | _ | _ | m <;>
          simp [NewSignup.add]
      · rcases pr with ⟨sel, unsel⟩
        simp [foldl_signup_role_add_signups, NewSignup.add]
    refine ⟨hsignups, ?_⟩
    rw [hsignups, List.filter_append, by_user_and_training_notFound s.db du t hsg]
    simp

/-- Witness for C9: with an existing signup (user 1, training 7) the flow
answers Already signed up and writes nothing; from the empty ledger the same
flow appends exactly one row for the pair. -/
theorem join_lookup_before_insert_witness :
    ((join_training joinEnvTimeout 5 7 { lock := ∅, db := signedDb }).1 =
        .ok "Already signed up" ∧
      (join_training joinEnvTimeout 5 7 { lock := ∅, db := signedDb }).2.1.db =
        signedDb) ∧
    ((join_training joinEnvTimeout 5 7 sampleState).2.1.db.signups =
        sampleDb.signups ++ [{ id := 10, user_id := 1, training_id := 7 }] ∧
      (join_training joinEnvTimeout 5 7 sampleState).2.1.db.signups.filter
          (fun sg => sg.user_id == 1 && sg.training_id == 7) =
        [{ id := 10, user_id := 1, training_id := 7 }]) := by
  constructor
  · exact (join_lookup_before_insert joinEnvTimeout 5 7
      { lock := ∅, db := signedDb }
      { id := 1, discord_id := 5, gw2_id := "x.1234" }
      { id := 7, title := "Beginner", date := 0, state := .Open, tier_id := none }
      "" (by decide) rfl rfl (by decide) (by decide) rfl).1
      { id := 3, user_id := 1, training_id := 7 } (by decide)
  · exact (join_lookup_before_insert joinEnvTimeout 5 7 sampleState
      { id := 1, discord_id := 5, gw2_id := "x.1234" }
      { id := 7, title := "Beginner", date := 0, state := .Open, tier_id := none }
      "" (by decide) rfl rfl (by decide) (by decide) rfl).2 (by decide)

/-- C1 counterexample: user 5 joins open training 7, lets role selection time
out (no events); join_training reports Timed out, yet the Signup Ledger now
holds a Signup row for the (user, training) pair - the row was inserted before
role selection and is not removed on timeout, refuting the claim that no
Signup row exists after a TimedOut role selection. -/
theorem join_timeout_keeps_signup_cex :
    (join_training joinEnvTimeout 5 7 sampleState).1 = .ok "Timed out" ∧
    (join_training joinEnvTimeout 5 7 sampleState).2.1.db.signups.filter
        (fun sg => sg.user_id == 1 && sg.training_id == 7) =
      [{ id := 10, user_id := 1, training_id := 7 }] := by
  constructor
  · decide
  · decide

/-- C1 (amended): when role selection times out in join_training, the Signup
row inserted before role selection remains in the ledger (the flow is not
all-or-nothing for the Signup row itself), but no partial role selection is
persisted: the signup_roles table is exactly as before the call. -/
theorem join_timeout_no_partial_roles (env : JoinEnv) (u : UserId) (tid : Int)
    (s : ConvState) (du : DbUser) (t : Training) (tname : String)
    (hlock : u ∉ s.lock) (hdm : env.conv.can_create_dm = true)
    (hsend : env.conv.can_send_msg = true)
    (huser : DbUser.by_discord_id s.db u = .ok du)
    (htrain : Training.by_id_and_state s.db tid TrainingState.Open = .ok t)
    (htier : env.verify_tier = .ok (true, tname))
    (hsg : Signup.by_user_and_training s.db du t = .error .notFound)
    (hsel : select_roles env.sel_events ([], join_candidate_roles s.db t) =
      .error .TimedOut) :
    (join_training env u tid s).1 = .ok "Timed out" ∧
    (join_training env u tid s).2.1.db.signups =
      s.db.signups ++
        [{ id := s.db.next_signup_id, user_id := du.id, training_id := t.id }] ∧
    (join_training env u tid s).2.1.db.signup_roles = s.db.signup_roles := by
  rw [join_training_fresh_path env u tid s du t tname
    hlock hdm hsend huser htrain htier hsg, hsel]
  exact ⟨rfl, by simp [NewSignup.add], rfl⟩

/-- Witness for C1 (amended): the concrete timed-out join of user 5 into
training 7 keeps the new Signup row and writes no SignupRole row. -/
theorem join_timeout_no_partial_roles_witness :
    (join_training joinEnvTimeout 5 7 sampleState).1 = .ok "Timed out" ∧
    (join_training joinEnvTimeout 5 7 sampleState).2.1.db.signups =
      sampleDb.signups ++ [{ id := 10, user_id := 1, training_id := 7 }] ∧
    (join_training joinEnvTimeout 5 7 sampleState).2.1.db.signup_roles =
      sampleDb.signup_roles :=
  join_timeout_no_partial_roles joinEnvTimeout 5 7 sampleState
    { id := 1, discord_id := 5, gw2_id := "x.1234" }
    { id := 7, title := "Beginner", date := 0, state := .Open, tier_id := none }
    "" (by decide) rfl rfl (by decide) (by decide) rfl (by decide) rfl

/-- Except.toOption hits some exactly on ok results. -/
theorem except_toOption_eq_some {ε α : Type} (x : Except ε α) (a : α) :
    x.toOption = some a ↔ x = .ok a := by
  cases x <;> simp [Except.toOption]

/-- A successful TrainingRole::role load only ever returns an active role. -/
theorem trainingRole_role_active (db : Db) (tr : TrainingRole) (r : Role)
    (h : TrainingRole.role db tr = .ok r) : r.active = true := by
  unfold TrainingRole.role at h
  rcases hf : (db.roles.filter (fun r2 => r2.active)).find?
      (fun r2 => r2.id == tr.role_id) with _ | r2
  · rw [hf] at h
    simp at h
  · rw [hf] at h
    simp only [Except.ok.injEq] at h
    subst h
    have hm := List.mem_of_find?_eq_some hf
    exact (List.mem_filter.mp hm).2

/-- C10: the candidate role set join_training offers is exactly the training's
TrainingRole rows whose Role loads successfully through the active-only query;
every offered role has the active flag set, and a role with the flag cleared
(or missing from the table) is silently omitted from the candidate set - the
initial selected set is empty and the unselected set is this candidate list,
so such a role appears in neither, and no error is surfaced. -/
theorem join_candidate_roles_spec (db : Db) (t : Training) :
    (∀ r, r ∈ join_candidate_roles db t ↔
      ∃ tr, tr ∈ Training.get_training_roles db t ∧
        TrainingRole.role db tr = .ok r) ∧
    (∀ r, r ∈ join_candidate_roles db t → r.active = true) ∧
    (∀ r, r.active = false → r ∉ join_candidate_roles db t) := by
  have h1 : ∀ r, r ∈ join_candidate_roles db t ↔
      ∃ tr, tr ∈ Training.get_training_roles db t ∧
        TrainingRole.role db tr = .ok r := by
    intro r
    unfold join_candidate_roles
    rw [List.mem_filterMap]
    constructor
    · rintro ⟨tr, htr, hok⟩
      exact ⟨tr, htr, (except_toOption_eq_some _ _).mp hok⟩
    · rintro ⟨tr, htr, hok⟩
      exact ⟨tr, htr, (except_toOption_eq_some _ _).mpr hok⟩
  have h2 : ∀ r, r ∈ join_candidate_roles db t → r.active = true := by
    intro r hr
    obtain ⟨tr, _, hok⟩ := (h1 r).mp hr
    exact trainingRole_role_active db tr r hok
  refine ⟨h1, h2, ?_⟩
  intro r hinactive hr
  rw [h2 r hr] at hinactive
  exact Bool.noConfusion hinactive

/-- Witness for C10: in the sample database training 7 carries roles A, B and
the deactivated role; the deactivated role is omitted from the candidate set
while role A is offered and active. -/
theorem join_candidate_roles_spec_witness :
    roleOld ∉ join_candidate_roles sampleDb
      { id := 7, title := "Beginner", date := 0, state := .Open, tier_id := none } ∧
    roleA ∈ join_candidate_roles sampleDb
      { id := 7, title := "Beginner", date := 0, state := .Open, tier_id := none } ∧
    roleA.active = true := by
  refine ⟨(join_candidate_roles_spec sampleDb _).2.2 roleOld rfl, by decide, ?_⟩
  exact (join_candidate_roles_spec sampleDb
    { id := 7, title := "Beginner", date := 0, state := .Open,
      tier_id := none }).2.1 roleA (by decide)
